import Mathlib

/-!
Verification of the ForgetMeNot memory-serving core.

Shallow embedding of the stateful session/cache layer and the display-mode
decision engine:
* `api/patient_query.py` — `filter_unseen_memories`, `select_media_for_mode`;
* `api/intent_classifier.py` — `classify_intent_with_gemini`,
  `determine_display_mode`, `get_media_availability`;
* `api/conversation_history.py` — `get_history` windowing;
* `api/cache_manager.py` — `_generate_key`, `_is_expired`, `get_memories`,
  `set_memories`.

External collaborators (the Gemini LLM call, `json.loads`, `hashlib.md5`,
Snowflake retrieval) are modelled as opaque parameters or at their output
boundary, exactly as the spec scopes them.
-/

namespace ForgetMeNot

/-- Character-list version of Python's `startswith` on strings. -/
def startsWithChars : List Char → List Char → Bool
  | [], _ => true
  | _ :: _, [] => false
  | p :: ps, c :: cs => p == c && startsWithChars ps cs

/-- Character-list version of Python's `in` substring test (`pat in s`). -/
def hasSubChars (pat : List Char) : List Char → Bool
  | [] => pat.isEmpty
  | c :: rest => startsWithChars pat (c :: rest) || hasSubChars pat rest

/-- Python `pat in s` on strings. -/
def hasSubstr (s pat : String) : Bool :=
  hasSubChars pat.data s.data

/-- One row of the memory tuple
`(event_name, file_name, file_type, description, people, event_summary, file_url, similarity)`
that Snowflake retrieval returns and `patient_query.py` destructures. -/
structure Memory where
  eventName : String
  fileName : String
  fileType : String
  description : String
  people : String
  eventSummary : String
  fileUrl : String
  similarity : Int
deriving DecidableEq, Repr

/-- Python `s.lower()` for the ASCII range, mapped over the characters
(kept as plain structural recursion so that proofs can evaluate it). -/
def lowerStr (s : String) : String :=
  ⟨s.data.map Char.toLower⟩

/-- The orientation heuristic from `select_media_for_mode` /
`get_media_availability`: a video is vertical iff its description contains
"vertical" or "portrait" (lower-cased). -/
def isVerticalDesc (description : String) : Bool :=
  hasSubstr (lowerStr description) "vertical" || hasSubstr (lowerStr description) "portrait"

/-- `file_type.lower() == "image"` test from the partition loops. -/
def isImage (m : Memory) : Bool := lowerStr m.fileType == "image"

/-- `file_type.lower() == "video"` test from the partition loops. -/
def isVideo (m : Memory) : Bool := lowerStr m.fileType == "video"

/-- The `images` bucket built by the partition loop in `select_media_for_mode`
(order-preserving append of `file_url` for each image row). -/
def imagesOf (memories : List Memory) : List String :=
  (memories.filter isImage).map Memory.fileUrl

/-- The `horizontal_videos` bucket of the partition loop. -/
def horizontalVideosOf (memories : List Memory) : List String :=
  (memories.filter (fun m => isVideo m && !isVerticalDesc m.description)).map Memory.fileUrl

/-- The `vertical_videos` bucket of the partition loop. -/
def verticalVideosOf (memories : List Memory) : List String :=
  (memories.filter (fun m => isVideo m && isVerticalDesc m.description)).map Memory.fileUrl

/-- The hard-coded agent placeholder media list from `select_media_for_mode`
(`patient_query.py` line 139). -/
def placeholder_agent_media : List String :=
  ["https://commondatastorage.googleapis.com/gtv-videos-bucket/sample/BigBuckBunny.mp4"]

/-- Python `int(display_mode[0])`: numeric value of the first character. -/
def mode_pic_count (display_mode : String) : Nat :=
  (display_mode.data.headD '0').toNat - '0'.toNat

/-- `select_media_for_mode` from `api/patient_query.py` (lines 90–141):
partitions the unseen memories into images / horizontal videos / vertical
videos, then selects media for the requested display mode, adjusting the
mode when not enough images are available. -/
def select_media_for_mode (display_mode : String) (memories : List Memory) :
    String × List String :=
  let images := imagesOf memories
  let horizontal_videos := horizontalVideosOf memories
  let vertical_videos := verticalVideosOf memories
  if display_mode = "4-pic" ∨ display_mode = "3-pic" ∨ display_mode = "5-pic" then
    let available_count := images.length
    if available_count ≥ 5 then
      let adjusted_mode := if display_mode = "5-pic" then "5-pic" else display_mode
      (adjusted_mode,
        if adjusted_mode = "5-pic" then images.take 5
        else images.take (mode_pic_count display_mode))
    else if available_count = 4 then ("4-pic", images.take 4)
    else if available_count = 3 then ("3-pic", images.take 3)
    else
      if horizontal_videos ≠ [] then ("video", horizontal_videos.take 1)
      else if vertical_videos ≠ [] then ("vertical-video", vertical_videos.take 1)
      else (display_mode, [])
  else if display_mode = "video" then
    (display_mode,
      if horizontal_videos ≠ [] then horizontal_videos.take 1
      else if images ≠ [] then images.take 1
      else [])
  else if display_mode = "vertical-video" then
    (display_mode,
      if vertical_videos ≠ [] then vertical_videos.take 1
      else if horizontal_videos ≠ [] then horizontal_videos.take 1
      else [])
  else if display_mode = "agent" then
    (display_mode, placeholder_agent_media)
  else
    (display_mode, [])

/-- The intent dict produced by `classify_intent_with_gemini`: JSON fields
are read with `.get`, so each may be absent (`none`). Confidence is a
rational standing for the JSON number. -/
structure IntentDescriptor where
  intent_type : Option String
  interaction_style : Option String
  emotional_tone : Option String
  specific_request : Option String
  confidence : Option ℚ
deriving DecidableEq, Repr

/-- The fields of the `media_availability` dict that
`determine_display_mode` reads: `total_images` and the
`video_orientations` counts. -/
structure MediaAvailability where
  total_images : Nat
  horizontal : Nat
  vertical : Nat
deriving DecidableEq, Repr

/-- The availability counts that `get_media_availability`
(`api/intent_classifier.py` lines 166–225) derives from the media rows for a
topic, computed here over the same memory inventory that the media selector
sees (same partition heuristic). -/
def media_availability_of (memories : List Memory) : MediaAvailability :=
  { total_images := (imagesOf memories).length
    horizontal := (horizontalVideosOf memories).length
    vertical := (verticalVideosOf memories).length }

/-- `determine_display_mode` from `api/intent_classifier.py` (lines 228–269):
agent when the intent is conversational/interactive, otherwise a priority
cascade over the availability counts. -/
def determine_display_mode (intent : IntentDescriptor)
    (media_availability : MediaAvailability) : String :=
  if intent.intent_type = some "conversation" ∨
      intent.interaction_style = some "interactive" then
    "agent"
  else
    let has_vertical_video := media_availability.vertical > 0
    let has_horizontal_video := media_availability.horizontal > 0
    let total_images := media_availability.total_images
    if has_vertical_video then "vertical-video"
    else if has_horizontal_video then "video"
    else if total_images ≥ 5 then "5-pic"
    else if total_images ≥ 4 then "4-pic"
    else if total_images ≥ 3 then "3-pic"
    else if total_images ≥ 1 then "3-pic"
    else "agent"

/-- The per-request resolver as the orchestrator (`patient_query`) composes
it: classify → mode from availability → media selection over the unseen
inventory. -/
def resolve_display (intent : IntentDescriptor) (memories : List Memory) :
    String × List String :=
  select_media_for_mode (determine_display_mode intent (media_availability_of memories))
    memories

/-- `filter_unseen_memories` from `api/patient_query.py` (lines 70–87):
keeps, in input order, the memories whose `file_url` is not in the shown
set of the session. The shown set is modelled by the list of its elements. -/
def filter_unseen_memories (memories : List Memory) (shown_ids : List String) :
    List Memory :=
  match memories with
  | [] => []
  | m :: rest =>
    if m.fileUrl ∈ shown_ids then filter_unseen_memories rest shown_ids
    else m :: filter_unseen_memories rest shown_ids

/-- One `ConversationTurn` record (`api/conversation_history.py`). The
timestamp is in abstract time units. -/
structure ConversationTurn where
  timestamp : ℚ
  role : String
  message : String
  topic : String
deriving DecidableEq, Repr

/-- The `conversations` store of `ConversationHistory`:
`{patient_id: {topic: [turns]}}`, modelled as a total map from the
(patient, topic) pair to the (possibly empty) turn list. -/
def LedgerStore : Type := String → String → List ConversationTurn

/-- A store with no conversation recorded (missing dict keys read as `[]`,
matching the early returns of `get_history`). -/
def emptyLedger : LedgerStore := fun _ _ => []

/-- `add_turn` from `api/conversation_history.py` (lines 30–52): appends a
turn to the (patient, topic) list, creating it when absent. -/
def add_turn (store : LedgerStore) (patient_id topic : String)
    (turn : ConversationTurn) : LedgerStore :=
  fun p t =>
    if p = patient_id ∧ t = topic then store patient_id topic ++ [turn]
    else store p t

/-- `get_history` from `api/conversation_history.py` (lines 54–77) with an
explicitly passed `max_turns` argument: returns the (patient, topic) turn
list, windowed to `history[-max_turns:]` when `max_turns` is truthy
(Python `if max_turns:` treats both `None` and `0` as falsy, returning the
full history). The 24h idle-session sweep that precedes the lookup
concerns session lifetime, not windowing, and is outside this pure model. -/
def get_history (store : LedgerStore) (patient_id topic : String)
    (max_turns : Option Nat) : List ConversationTurn :=
  let history := store patient_id topic
  match max_turns with
  | none => history
  | some n => if n ≠ 0 then history.drop (history.length - n) else history

/-- A call of `get_history` that does not specify `max_turns`: the Python
signature is `max_turns: Optional[int] = 10`, so omitting the argument
passes the default `10`. -/
def get_history_default (store : LedgerStore) (patient_id topic : String) :
    List ConversationTurn :=
  get_history store patient_id topic (some 10)

/-- Python `":".join(args)`. -/
def py_join (sep : String) : List String → String
  | [] => ""
  | [s] => s
  | s :: rest => s ++ sep ++ py_join sep rest

/-- The pre-hash key string of `_generate_key` from `api/cache_manager.py`
(lines 24–27): `":".join(str(arg) for arg in args)`. The md5 digest applied
afterwards is an external library call; since it is a function of this
string, equal key strings always give equal cache keys. -/
def generate_key_string (args : List String) : String :=
  py_join ":" args

/-- One cache entry `{data, timestamp}` from `CacheManager`. Timestamps are
rationals measured in minutes. -/
structure QCacheEntry (α : Type) where
  data : α
  timestamp : ℚ
deriving DecidableEq, Repr

/-- The `memory_cache` dict: cache-key string → entry. -/
def CacheStore (α : Type) : Type := String → Option (QCacheEntry α)

/-- A cache with no entries. -/
def emptyCache (α : Type) : CacheStore α := fun _ => none

/-- `_is_expired` from `api/cache_manager.py` (lines 29–32): the entry age
`now - timestamp` exceeds the TTL. -/
def is_expired (ttl_minutes : ℚ) (now timestamp : ℚ) : Bool :=
  now - timestamp > ttl_minutes

/-- Python `patient_id or "default"`: `None` and `""` are both falsy. -/
def patient_or_default : Option String → String
  | none => "default"
  | some s => if s = "" then "default" else s

/-- `set_memories` from `api/cache_manager.py` (lines 51–60): overwrite the
entry under the derived key, stamping the current time. -/
def set_memories (store : CacheStore (List Memory)) (topic : String)
    (patient_id : Option String) (memories : List Memory) (now : ℚ) :
    CacheStore (List Memory) :=
  let cache_key := generate_key_string ["memories", topic, patient_or_default patient_id]
  fun k => if k = cache_key then some ⟨memories, now⟩ else store k

/-- `get_memories` from `api/cache_manager.py` (lines 34–49): fresh hit
returns the data unchanged; an expired entry is deleted and treated as a
miss; a missing key is a miss. Returns the result together with the store
after any lazy eviction. -/
def get_memories (ttl_minutes : ℚ) (store : CacheStore (List Memory))
    (topic : String) (patient_id : Option String) (now : ℚ) :
    Option (List Memory) × CacheStore (List Memory) :=
  let cache_key := generate_key_string ["memories", topic, patient_or_default patient_id]
  match store cache_key with
  | some entry =>
    if is_expired ttl_minutes now entry.timestamp then
      (none, fun k => if k = cache_key then none else store k)
    else
      (some entry.data, store)
  | none => (none, store)

/-- Markdown-fence stripping inside `classify_intent_with_gemini`
(`api/intent_classifier.py` lines 145–149): extract the fenced block when
the response is wrapped in ```json ... ``` or ``` ... ```. -/
def stripMarkdownFence (response : String) : String :=
  if hasSubstr response "```json" then
    ((((response.splitOn "```json").getD 1 "").splitOn "```").headD "").trim
  else if hasSubstr response "```" then
    ((((response.splitOn "```").getD 1 "").splitOn "```").headD "").trim
  else
    response

/-- The deterministic fallback descriptor of `classify_intent_with_gemini`
(`api/intent_classifier.py` lines 156–163). -/
def fallback_intent (topic : String) : IntentDescriptor :=
  { intent_type := some "memory_replay"
    interaction_style := some "passive"
    emotional_tone := some "curious"
    specific_request := some ("wants to learn about " ++ topic)
    confidence := some (1 / 2) }

/-- `classify_intent_with_gemini` from `api/intent_classifier.py`
(lines 56–163) at its external boundary: `call_result` is the outcome of the
external `generate_text` call (`.error` = raised exception / timeout), and
`parse_json` models `json.loads` plus dict construction (`none` = non-JSON
or malformed output, which raises inside the `try`). Any failure lands in
the `except` branch, which returns the fallback descriptor. -/
def classify_intent_with_gemini (call_result : Except String String)
    (parse_json : String → Option IntentDescriptor) (topic : String) :
    IntentDescriptor :=
  match call_result with
  | .error _ => fallback_intent topic
  | .ok response =>
    match parse_json (stripMarkdownFence response) with
    | none => fallback_intent topic
    | some intent_data => intent_data

/-! ### Concrete media rows used in witnesses and counterexamples -/

/-- An image row with the given URL. -/
def mkImage (u : String) : Memory :=
  ⟨"event", "file", "image", "a sunny day", "people", "summary", u, 0⟩

/-- A horizontal-video row with the given URL (description mentions neither
"vertical" nor "portrait"). -/
def mkHorizontalVideo (u : String) : Memory :=
  ⟨"event", "file", "video", "beach scene", "people", "summary", u, 0⟩

/-- A vertical-video row with the given URL. -/
def mkVerticalVideo (u : String) : Memory :=
  ⟨"event", "file", "video", "a vertical clip", "people", "summary", u, 0⟩

/-- A concrete conversational intent descriptor. -/
def c1_conv_intent : IntentDescriptor :=
  ⟨some "conversation", some "passive", some "seeking_connection",
    some "wants to talk to Avery", some (9 / 10)⟩

/-! ### Helper lemmas -/

/-- The appending loop of `filter_unseen_memories` is `List.filter` on the
"not shown" predicate. -/
theorem filter_unseen_eq_filter (memories : List Memory) (shown_ids : List String) :
    filter_unseen_memories memories shown_ids
      = memories.filter (fun m => decide (m.fileUrl ∉ shown_ids)) := by
  induction memories with
  | nil => rfl
  | cons m rest ih =>
    by_cases h : m.fileUrl ∈ shown_ids
    · simp [filter_unseen_memories, h, ih]
    · simp [filter_unseen_memories, h, ih]

/-- With an empty shown set the unseen filter keeps everything. -/
theorem filter_unseen_nil_shown (memories : List Memory) :
    filter_unseen_memories memories [] = memories := by
  rw [filter_unseen_eq_filter]
  simp

end ForgetMeNot

namespace ForgetMeNot

/-- C1: a conversational intent (`intent_type = "conversation"` or
`interaction_style = "interactive"`) always resolves to display mode
"agent", whatever the media availability or unseen inventory, and agent
mode is always paired with the fixed one-element placeholder media list,
never an empty list. -/
theorem c1_conversation_intent_always_agent (intent : IntentDescriptor)
    (avail : MediaAvailability) (memories : List Memory)
    (h : intent.intent_type = some "conversation" ∨
      intent.interaction_style = some "interactive") :
    determine_display_mode intent avail = "agent" ∧
    select_media_for_mode "agent" memories = ("agent", placeholder_agent_media) ∧
    resolve_display intent memories = ("agent", placeholder_agent_media) ∧
    placeholder_agent_media.length = 1 ∧ placeholder_agent_media ≠ [] := by
  have hdet : ∀ av : MediaAvailability, determine_display_mode intent av = "agent" := by
    intro av
    unfold determine_display_mode
    rw [if_pos h]
  have hsel : select_media_for_mode "agent" memories = ("agent", placeholder_agent_media) := rfl
  refine ⟨hdet avail, hsel, ?_, rfl, by simp [placeholder_agent_media]⟩
  unfold resolve_display
  rw [hdet]
  exact hsel

theorem c1_witness :
    c1_conv_intent.intent_type = some "conversation" ∧
    resolve_display c1_conv_intent
      [mkImage "c1i1", mkImage "c1i2", mkImage "c1i3", mkImage "c1i4", mkImage "c1i5"]
      = ("agent", placeholder_agent_media) :=
  ⟨rfl,
    (c1_conversation_intent_always_agent c1_conv_intent
      ⟨5, 0, 0⟩
      [mkImage "c1i1", mkImage "c1i2", mkImage "c1i3", mkImage "c1i4", mkImage "c1i5"]
      (Or.inl rfl)).2.2.1⟩

/-- C4: the unseen filter returns exactly the order-preserving subsequence
of candidates whose `file_url` is not in the shown set; and when the
filtered result is empty although the input was not, resetting the shown
set to empty and re-filtering the original list returns it unchanged
(lap-around). -/
theorem c4_unseen_filter_lap_around (memories : List Memory) (shown_ids : List String) :
    filter_unseen_memories memories shown_ids
      = memories.filter (fun m => decide (m.fileUrl ∉ shown_ids)) ∧
    (filter_unseen_memories memories shown_ids).Sublist memories ∧
    (∀ m : Memory, m ∈ filter_unseen_memories memories shown_ids ↔
      m ∈ memories ∧ m.fileUrl ∉ shown_ids) ∧
    (filter_unseen_memories memories shown_ids = [] → memories ≠ [] →
      filter_unseen_memories memories [] = memories) := by
  refine ⟨filter_unseen_eq_filter memories shown_ids, ?_, ?_, ?_⟩
  · rw [filter_unseen_eq_filter]
    exact List.filter_sublist memories
  · intro m
    rw [filter_unseen_eq_filter]
    simp [List.mem_filter]
  · intro _ _
    exact filter_unseen_nil_shown memories

theorem c4_witness :
    filter_unseen_memories [mkImage "c4a", mkImage "c4b", mkImage "c4c"] ["c4a", "c4c"]
      = [mkImage "c4b"] ∧
    filter_unseen_memories [mkImage "c4a", mkImage "c4b", mkImage "c4c"]
      ["c4a", "c4b", "c4c"] = [] ∧
    filter_unseen_memories [mkImage "c4a", mkImage "c4b", mkImage "c4c"] []
      = [mkImage "c4a", mkImage "c4b", mkImage "c4c"] := by
  refine ⟨?_, ?_, ?_⟩
  · rw [(c4_unseen_filter_lap_around
      [mkImage "c4a", mkImage "c4b", mkImage "c4c"] ["c4a", "c4c"]).1]
    decide
  · rw [(c4_unseen_filter_lap_around
      [mkImage "c4a", mkImage "c4b", mkImage "c4c"] ["c4a", "c4b", "c4c"]).1]
    decide
  · exact (c4_unseen_filter_lap_around
      [mkImage "c4a", mkImage "c4b", mkImage "c4c"] ["c4a", "c4b", "c4c"]).2.2.2
      (by decide) (by decide)

/-- C10: a pre-requested video mode is always honored as the returned mode
label, with the media chosen by a fixed fallback chain: mode "video" takes
the first unseen horizontal video, else the first unseen image, else
nothing (so "video" can be paired with an image); mode "vertical-video"
takes the first unseen vertical video, else the first unseen horizontal
video, else nothing — never an image. -/
theorem c10_video_mode_fallback_chain (memories : List Memory) :
    (select_media_for_mode "video" memories
      = ("video",
        match (horizontalVideosOf memories).head? with
        | some v => [v]
        | none =>
          match (imagesOf memories).head? with
          | some i => [i]
          | none => [])) ∧
    (select_media_for_mode "vertical-video" memories
      = ("vertical-video",
        match (verticalVideosOf memories).head? with
        | some v => [v]
        | none =>
          match (horizontalVideosOf memories).head? with
          | some v => [v]
          | none => [])) ∧
    (∀ u ∈ (select_media_for_mode "vertical-video" memories).2,
      u ∈ verticalVideosOf memories ∨ u ∈ horizontalVideosOf memories) := by
  have hv : select_media_for_mode "video" memories
      = ("video",
        if horizontalVideosOf memories ≠ [] then (horizontalVideosOf memories).take 1
        else if imagesOf memories ≠ [] then (imagesOf memories).take 1
        else []) := rfl
  have hvv : select_media_for_mode "vertical-video" memories
      = ("vertical-video",
        if verticalVideosOf memories ≠ [] then (verticalVideosOf memories).take 1
        else if horizontalVideosOf memories ≠ [] then (horizontalVideosOf memories).take 1
        else []) := rfl
  refine ⟨?_, ?_, ?_⟩
  · rw [hv]
    cases hH : horizontalVideosOf memories with
    | cons v vs => simp
    | nil =>
      cases hI : imagesOf memories with
      | cons i is => simp
      | nil => simp
  · rw [hvv]
    cases hV : verticalVideosOf memories with
    | cons v vs => simp
    | nil =>
      cases hH : horizontalVideosOf memories with
      | cons v vs => simp
      | nil => simp
  · intro u hu
    rw [hvv] at hu
    by_cases hV : verticalVideosOf memories = []
    · by_cases hH : horizontalVideosOf memories = []
      · simp [hV, hH] at hu
      · refine Or.inr ?_
        simp only [hV, hH, ne_eq, not_true_eq_false, if_false, not_false_eq_true,
          if_true] at hu
        exact List.mem_of_mem_take hu
    · refine Or.inl ?_
      simp only [hV, ne_eq, not_false_eq_true, if_true] at hu
      exact List.mem_of_mem_take hu

/-- The photo-mode adjustment rule that `select_media_for_mode` actually
implements for a pre-requested photo mode (amended claim C2): with five or
more unseen images the originally requested mode is honored (availability
never upgrades a request); exactly 4 → 4-pic; exactly 3 → 3-pic; fewer
than 3 images falls back to the first horizontal video, else the first
vertical video, else the originally requested mode with an empty media
list — even when 1 or 2 unseen images exist, which are then not shown. -/
def photo_adjustment_rule (display_mode : String)
    (images horizontal_videos vertical_videos : List String) : String × List String :=
  if images.length ≥ 5 then (display_mode, images.take (mode_pic_count display_mode))
  else if images.length = 4 then ("4-pic", images.take 4)
  else if images.length = 3 then ("3-pic", images.take 3)
  else if horizontal_videos ≠ [] then ("video", horizontal_videos.take 1)
  else if vertical_videos ≠ [] then ("vertical-video", vertical_videos.take 1)
  else (display_mode, [])

/-- The spec's inventory for the "scarce images, video fallback" example:
two unseen images, one horizontal video. -/
def c2_scarce_mems : List Memory :=
  [mkImage "c2w1", mkImage "c2w2", mkHorizontalVideo "c2wv"]

/-- For a pre-requested photo mode, `select_media_for_mode` computes
exactly `photo_adjustment_rule` over the partitioned inventory. -/
theorem select_media_photo_mode (display_mode : String) (memories : List Memory)
    (h : display_mode = "3-pic" ∨ display_mode = "4-pic" ∨ display_mode = "5-pic") :
    select_media_for_mode display_mode memories
      = photo_adjustment_rule display_mode (imagesOf memories)
          (horizontalVideosOf memories) (verticalVideosOf memories) := by
  rcases h with h | h | h <;> subst h <;> rfl

/-- C2 fails on the code in two ways: (a) with only 1–2 unseen images and
no videos the function keeps the originally requested mode but pairs it
with an EMPTY media list although unseen images exist, instead of
downgrading to `("3-pic", those images)`; (b) with five or more unseen
images a stale smaller request is honored, not re-derived to the 5-pic
tier: requesting 3-pic over six images returns the first three, not
`("5-pic", first five)`. -/
theorem c2_counterexample :
    (select_media_for_mode "4-pic" [mkImage "c2a", mkImage "c2b"] = ("4-pic", []) ∧
      imagesOf [mkImage "c2a", mkImage "c2b"] = ["c2a", "c2b"] ∧
      horizontalVideosOf [mkImage "c2a", mkImage "c2b"] = [] ∧
      verticalVideosOf [mkImage "c2a", mkImage "c2b"] = []) ∧
    (select_media_for_mode "3-pic"
        [mkImage "c2p", mkImage "c2q", mkImage "c2r",
          mkImage "c2s", mkImage "c2t", mkImage "c2u"]
        = ("3-pic", ["c2p", "c2q", "c2r"]) ∧
      select_media_for_mode "3-pic"
        [mkImage "c2p", mkImage "c2q", mkImage "c2r",
          mkImage "c2s", mkImage "c2t", mkImage "c2u"]
        ≠ ("5-pic", ["c2p", "c2q", "c2r", "c2s", "c2t"])) := by
  exact ⟨⟨rfl, rfl, rfl, rfl⟩, rfl, by decide⟩

/-- C2 (amended): for every pre-requested photo mode, the media selector
follows `photo_adjustment_rule` over the unseen inventory: five or more
images honor the requested mode with its pic count; exactly 4 / exactly 3
downgrade to 4-pic / 3-pic; below 3 images it falls back to horizontal
then vertical video, and otherwise returns the original mode with an empty
media list (also when 1 or 2 unseen images exist). -/
theorem c2_photo_mode_adjustment (display_mode : String) (memories : List Memory)
    (h : display_mode = "3-pic" ∨ display_mode = "4-pic" ∨ display_mode = "5-pic") :
    select_media_for_mode display_mode memories
      = photo_adjustment_rule display_mode (imagesOf memories)
          (horizontalVideosOf memories) (verticalVideosOf memories) :=
  select_media_photo_mode display_mode memories h

theorem c2_witness :
    select_media_for_mode "4-pic" c2_scarce_mems
      = photo_adjustment_rule "4-pic" (imagesOf c2_scarce_mems)
          (horizontalVideosOf c2_scarce_mems) (verticalVideosOf c2_scarce_mems) ∧
    select_media_for_mode "4-pic" c2_scarce_mems = ("video", ["c2wv"]) := by
  have h := c2_photo_mode_adjustment "4-pic" c2_scarce_mems (Or.inr (Or.inl rfl))
  exact ⟨h, by rw [h]; decide⟩

/-- The passive-intent display-mode priority cascade exactly as claim C3
words it (first match wins, with the exact-count conditions of the claim). -/
def claimed_passive_mode (nImg nHoriz nVert : Nat) : String :=
  if nVert > 0 then "vertical-video"
  else if nHoriz > 0 then "video"
  else if nImg ≥ 5 then "5-pic"
  else if nImg = 4 then "4-pic"
  else if nImg = 3 then "3-pic"
  else if nImg = 1 ∨ nImg = 2 then "3-pic"
  else "agent"

/-- A concrete passive memory-replay intent descriptor. -/
def c3_passive_intent : IntentDescriptor :=
  ⟨some "memory_replay", some "passive", some "curious",
    some "wants to learn about the beach day", some (4 / 5)⟩

/-- C3 fails on the code in its 1-or-2-images branch: the composed
resolver labels the mode "3-pic" but pairs it with an EMPTY media list,
not with the one or two existing images the claim promises to show. -/
theorem c3_counterexample :
    resolve_display c3_passive_intent [mkImage "c3a", mkImage "c3b"] = ("3-pic", []) ∧
    resolve_display c3_passive_intent [mkImage "c3a", mkImage "c3b"]
      ≠ ("3-pic", ["c3a", "c3b"]) := by
  exact ⟨rfl, by decide⟩

/-- C3 (amended): for every passive memory-replay intent the display mode
follows the claimed priority cascade (vertical video, horizontal video,
then the 5/4/3 photo tiers, 3-pic for one or two images, agent when
nothing exists); six images and no videos resolve to
`("5-pic", first five images)`; but one or two images and no videos
resolve to `("3-pic", [])` — the 3-pic label with an empty media list,
not with the existing images. -/
theorem c3_passive_priority (intent : IntentDescriptor) (memories : List Memory)
    (h1 : intent.intent_type ≠ some "conversation")
    (h2 : intent.interaction_style ≠ some "interactive") :
    determine_display_mode intent (media_availability_of memories)
      = claimed_passive_mode (imagesOf memories).length
          (horizontalVideosOf memories).length (verticalVideosOf memories).length ∧
    ((imagesOf memories).length = 6 → horizontalVideosOf memories = [] →
      verticalVideosOf memories = [] →
      resolve_display intent memories = ("5-pic", (imagesOf memories).take 5)) ∧
    (1 ≤ (imagesOf memories).length → (imagesOf memories).length ≤ 2 →
      horizontalVideosOf memories = [] → verticalVideosOf memories = [] →
      resolve_display intent memories = ("3-pic", [])) := by
  have hcond : ¬(intent.intent_type = some "conversation" ∨
      intent.interaction_style = some "interactive") := not_or.mpr ⟨h1, h2⟩
  have hmode : determine_display_mode intent (media_availability_of memories)
      = claimed_passive_mode (imagesOf memories).length
          (horizontalVideosOf memories).length (verticalVideosOf memories).length := by
    simp only [determine_display_mode, media_availability_of, claimed_passive_mode]
    rw [if_neg hcond]
    split_ifs <;> first | rfl | omega
  refine ⟨hmode, ?_, ?_⟩
  · intro h6 hH hV
    have hsix : (imagesOf memories).length ≥ 5 := by omega
    unfold resolve_display
    rw [hmode]
    rw [h6, hH, hV]
    show select_media_for_mode (claimed_passive_mode 6 0 0) memories = _
    have hc : claimed_passive_mode 6 0 0 = "5-pic" := by decide
    rw [hc, select_media_photo_mode "5-pic" memories (Or.inr (Or.inr rfl))]
    unfold photo_adjustment_rule
    rw [if_pos hsix]
    rfl
  · intro hge hle hH hV
    unfold resolve_display
    rw [hmode, hH, hV]
    have hm : claimed_passive_mode (imagesOf memories).length
        (List.length ([] : List String)) (List.length ([] : List String)) = "3-pic" := by
      simp only [claimed_passive_mode, List.length_nil]
      split_ifs <;> first | rfl | omega
    rw [hm, select_media_photo_mode "3-pic" memories (Or.inl rfl)]
    unfold photo_adjustment_rule
    rw [if_neg (by omega : ¬(imagesOf memories).length ≥ 5),
      if_neg (by omega : ¬(imagesOf memories).length = 4),
      if_neg (by omega : ¬(imagesOf memories).length = 3),
      if_neg (by simp [hH]), if_neg (by simp [hV])]

theorem c3_witness :
    c3_passive_intent.intent_type ≠ some "conversation" ∧
    resolve_display c3_passive_intent
      [mkImage "c3w1", mkImage "c3w2", mkImage "c3w3",
        mkImage "c3w4", mkImage "c3w5", mkImage "c3w6"]
      = ("5-pic", ["c3w1", "c3w2", "c3w3", "c3w4", "c3w5"]) := by
  refine ⟨by decide, ?_⟩
  have h := (c3_passive_priority c3_passive_intent
    [mkImage "c3w1", mkImage "c3w2", mkImage "c3w3",
      mkImage "c3w4", mkImage "c3w5", mkImage "c3w6"]
    (by decide) (by decide)).2.1 (by decide) (by decide) (by decide)
  rw [h]
  decide

theorem c10_witness :
    select_media_for_mode "video" [mkImage "c10i"] = ("video", ["c10i"]) ∧
    select_media_for_mode "vertical-video" [mkImage "c10i", mkHorizontalVideo "c10h"]
      = ("vertical-video", ["c10h"]) := by
  constructor
  · rw [(c10_video_mode_fallback_chain [mkImage "c10i"]).1]
    decide
  · rw [(c10_video_mode_fallback_chain [mkImage "c10i", mkHorizontalVideo "c10h"]).2.1]
    decide

/-! ### C5 — conversation ledger windowing -/

/-- Windowing equation of `get_history` for a truthy `max_turns`:
`history[-n:]` is the last `n` turns in chronological order. -/
theorem get_history_some_pos (store : LedgerStore) (p t : String) (n : Nat)
    (hn : n ≠ 0) :
    get_history store p t (some n) = ((store p t).reverse.take n).reverse := by
  have h := List.rtake_eq_reverse_take_reverse (l := store p t) (n := n)
  rw [List.rtake] at h
  show (if n ≠ 0 then (store p t).drop ((store p t).length - n) else store p t)
    = ((store p t).reverse.take n).reverse
  rw [if_pos hn]
  exact h

/-- A ledger holding exactly one appended turn. -/
def c5_one_turn_store : LedgerStore :=
  add_turn emptyLedger "p5" "t5" ⟨0, "patient", "hello", "t5"⟩

/-- Eleven turns appended in order to one (patient, topic) ledger. -/
def c5_eleven_turns : List ConversationTurn :=
  [⟨1, "patient", "e1", "t5e"⟩, ⟨2, "agent", "e2", "t5e"⟩,
    ⟨3, "patient", "e3", "t5e"⟩, ⟨4, "agent", "e4", "t5e"⟩,
    ⟨5, "patient", "e5", "t5e"⟩, ⟨6, "agent", "e6", "t5e"⟩,
    ⟨7, "patient", "e7", "t5e"⟩, ⟨8, "agent", "e8", "t5e"⟩,
    ⟨9, "patient", "e9", "t5e"⟩, ⟨10, "agent", "e10", "t5e"⟩,
    ⟨11, "patient", "e11", "t5e"⟩]

/-- The ledger after the eleven appends of `c5_eleven_turns`. -/
def c5_eleven_store : LedgerStore :=
  c5_eleven_turns.foldl (fun s turn => add_turn s "p5e" "t5e" turn) emptyLedger

/-- C5 fails on the code in both conjuncts: calling `get_history` without
specifying `maxTurns` uses the Python default `max_turns = 10`, so on an
eleven-turn ledger it returns only the last ten turns, NOT the complete
history; and a specified `maxTurns = 0` is falsy under Python's
`if max_turns:`, so it returns the FULL history instead of the last zero
turns. -/
theorem c5_counterexample :
    (get_history_default c5_eleven_store "p5e" "t5e"
        ≠ c5_eleven_store "p5e" "t5e" ∧
      (get_history_default c5_eleven_store "p5e" "t5e").length = 10 ∧
      (c5_eleven_store "p5e" "t5e").length = 11) ∧
    (get_history c5_one_turn_store "p5" "t5" (some 0)
        = [⟨0, "patient", "hello", "t5"⟩] ∧
      get_history c5_one_turn_store "p5" "t5" (some 0)
        ≠ ([] : List ConversationTurn)) :=
  ⟨⟨by decide, rfl, rfl⟩, rfl, by decide⟩

/-- C5 (amended): calling `recent` without specifying `maxTurns` uses the
default `maxTurns = 10` and returns the last ten appended turns — the
complete history only when the ledger holds at most ten turns; an explicit
`maxTurns = None` returns the complete history; every specified
`maxTurns ≥ 1` returns exactly the last `maxTurns` appended turns in
chronological order; and a specified `maxTurns = 0` is treated like
`None` (Python truthiness), returning the full history. -/
theorem c5_ledger_windowing (store : LedgerStore) (p t : String) (n : Nat)
    (hn : 1 ≤ n) :
    get_history_default store p t = ((store p t).reverse.take 10).reverse ∧
    ((store p t).length ≤ 10 → get_history_default store p t = store p t) ∧
    get_history store p t none = store p t ∧
    get_history store p t (some n) = ((store p t).reverse.take n).reverse ∧
    get_history store p t (some 0) = store p t := by
  have hdef : get_history_default store p t
      = ((store p t).reverse.take 10).reverse :=
    get_history_some_pos store p t 10 (by omega)
  refine ⟨hdef, ?_, rfl, get_history_some_pos store p t n (by omega), rfl⟩
  intro hlen
  rw [hdef, List.take_of_length_le (by simpa using hlen), List.reverse_reverse]

/-- Eight turns appended in order to one (patient, topic) ledger. -/
def c5_turns : List ConversationTurn :=
  [⟨1, "patient", "w1", "tc5"⟩, ⟨2, "agent", "w2", "tc5"⟩,
    ⟨3, "patient", "w3", "tc5"⟩, ⟨4, "agent", "w4", "tc5"⟩,
    ⟨5, "patient", "w5", "tc5"⟩, ⟨6, "agent", "w6", "tc5"⟩,
    ⟨7, "patient", "w7", "tc5"⟩, ⟨8, "agent", "w8", "tc5"⟩]

/-- The ledger after the eight appends of `c5_turns`. -/
def c5_eight_store : LedgerStore :=
  c5_turns.foldl (fun s turn => add_turn s "p5w" "tc5" turn) emptyLedger

theorem c5_witness :
    get_history c5_eight_store "p5w" "tc5" (some 5)
      = [⟨4, "agent", "w4", "tc5"⟩, ⟨5, "patient", "w5", "tc5"⟩,
          ⟨6, "agent", "w6", "tc5"⟩, ⟨7, "patient", "w7", "tc5"⟩,
          ⟨8, "agent", "w8", "tc5"⟩] ∧
    get_history_default c5_eight_store "p5w" "tc5"
      = c5_eight_store "p5w" "tc5" := by
  have h := c5_ledger_windowing c5_eight_store "p5w" "tc5" 5 (by decide)
  constructor
  · rw [h.2.2.2.1]
    rfl
  · exact h.2.1 (by decide)

/-! ### C6 — classifier fallback on external failure -/

/-- C6: whatever the topic, on a raised/timed-out external call
(`.error`) or on non-JSON / malformed output (the parse yields `none`),
`classify_intent_with_gemini` swallows the failure and returns exactly the
deterministic fallback descriptor
`{memory_replay, passive, curious, "wants to learn about <topic>", 0.5}`. -/
theorem c6_classifier_fallback (topic err : String)
    (parse_json : String → Option IntentDescriptor) :
    classify_intent_with_gemini (.error err) parse_json topic = fallback_intent topic ∧
    (∀ response : String, parse_json (stripMarkdownFence response) = none →
      classify_intent_with_gemini (.ok response) parse_json topic = fallback_intent topic) ∧
    fallback_intent topic
      = ⟨some "memory_replay", some "passive", some "curious",
          some ("wants to learn about " ++ topic), some (1 / 2)⟩ := by
  refine ⟨rfl, ?_, rfl⟩
  intro response h
  show (match parse_json (stripMarkdownFence response) with
    | none => fallback_intent topic
    | some intent_data => intent_data) = fallback_intent topic
  rw [h]

theorem c6_witness :
    classify_intent_with_gemini (.error "timeout") (fun _ => none) "college"
      = fallback_intent "college" ∧
    classify_intent_with_gemini (.ok "not json at all") (fun _ => none) "college"
      = fallback_intent "college" :=
  ⟨(c6_classifier_fallback "college" "timeout" (fun _ => none)).1,
    (c6_classifier_fallback "college" "timeout" (fun _ => none)).2.1 "not json at all" rfl⟩

/-! ### C7 — cache TTL freshness -/

/-- Unfolding equation for `get_memories`. -/
theorem get_memories_eq (ttl : ℚ) (store : CacheStore (List Memory))
    (topic : String) (patient_id : Option String) (now : ℚ) :
    get_memories ttl store topic patient_id now
      = match store (generate_key_string ["memories", topic, patient_or_default patient_id]) with
        | some entry =>
          if is_expired ttl now entry.timestamp then
            (none, fun k =>
              if k = generate_key_string ["memories", topic, patient_or_default patient_id]
              then none else store k)
          else (some entry.data, store)
        | none => (none, store) := rfl

/-- After `set_memories`, the store holds the freshly stamped entry under
the derived key. -/
theorem set_memories_at_key (store : CacheStore (List Memory)) (topic : String)
    (patient_id : Option String) (v : List Memory) (t_set : ℚ) :
    set_memories store topic patient_id v t_set
      (generate_key_string ["memories", topic, patient_or_default patient_id])
      = some ⟨v, t_set⟩ := by
  show (if generate_key_string ["memories", topic, patient_or_default patient_id]
        = generate_key_string ["memories", topic, patient_or_default patient_id]
      then some (⟨v, t_set⟩ : QCacheEntry (List Memory))
      else store (generate_key_string ["memories", topic, patient_or_default patient_id]))
    = some ⟨v, t_set⟩
  rw [if_pos rfl]

/-- C7: after `set`, a `get` whose age `now − createdAt` is at most the TTL
returns the cached value; a `get` whose age exceeds the TTL is a miss
(`none`, never an error) and removes the stale entry from the store. -/
theorem c7_cache_freshness (store : CacheStore (List Memory)) (topic : String)
    (patient_id : Option String) (v : List Memory) (t_set t_get ttl : ℚ) :
    (t_get - t_set ≤ ttl →
      (get_memories ttl (set_memories store topic patient_id v t_set)
        topic patient_id t_get).1 = some v) ∧
    (t_get - t_set > ttl →
      (get_memories ttl (set_memories store topic patient_id v t_set)
        topic patient_id t_get).1 = none ∧
      (get_memories ttl (set_memories store topic patient_id v t_set)
        topic patient_id t_get).2
        (generate_key_string ["memories", topic, patient_or_default patient_id])
        = none) := by
  constructor
  · intro h
    have hexp : is_expired ttl t_get t_set = false := by
      simp only [is_expired, decide_eq_false_iff_not]
      exact not_lt.mpr h
    rw [get_memories_eq,
      set_memories_at_key store topic patient_id v t_set]
    simp [hexp]
  · intro h
    have hexp : is_expired ttl t_get t_set = true := by
      simp only [is_expired, decide_eq_true_eq]
      exact h
    constructor
    · rw [get_memories_eq,
        set_memories_at_key store topic patient_id v t_set]
      simp [hexp]
    · rw [get_memories_eq,
        set_memories_at_key store topic patient_id v t_set]
      simp [hexp]

/-- A concrete cached memory list. -/
def c7_mem : Memory := mkImage "c7url"

theorem c7_witness :
    (get_memories 30 (set_memories (emptyCache (List Memory)) "disney" none [c7_mem] 0)
      "disney" none 10).1 = some [c7_mem] ∧
    (get_memories 30 (set_memories (emptyCache (List Memory)) "disney" none [c7_mem] 0)
      "disney" none 41).1 = none :=
  ⟨(c7_cache_freshness (emptyCache (List Memory)) "disney" none [c7_mem] 0 10 30).1
      (by norm_num),
    ((c7_cache_freshness (emptyCache (List Memory)) "disney" none [c7_mem] 0 41 30).2
      (by norm_num)).1⟩

/-! ### C8 — cache key order sensitivity -/

/-- Splitting at a separator absent from both left parts is unambiguous. -/
theorem sep_split_unique {α : Type} {c : α} :
    ∀ (l₁ l₂ r₁ r₂ : List α), c ∉ l₁ → c ∉ l₂ →
      l₁ ++ c :: r₁ = l₂ ++ c :: r₂ → l₁ = l₂ := by
  intro l₁
  induction l₁ with
  | nil =>
    intro l₂ r₁ r₂ h₁ h₂ heq
    cases l₂ with
    | nil => rfl
    | cons y t =>
      exfalso
      simp only [List.nil_append, List.cons_append] at heq
      injection heq with hy _
      exact h₂ (List.mem_cons.mpr (Or.inl hy))
  | cons x t ih =>
    intro l₂ r₁ r₂ h₁ h₂ heq
    cases l₂ with
    | nil =>
      exfalso
      simp only [List.cons_append, List.nil_append] at heq
      injection heq with hy _
      exact h₁ (List.mem_cons.mpr (Or.inl hy.symm))
    | cons y s =>
      simp only [List.cons_append] at heq
      injection heq with hxy htail
      have hrec := ih s r₁ r₂ (fun hm => h₁ (List.mem_cons_of_mem x hm))
        (fun hm => h₂ (List.mem_cons_of_mem y hm)) htail
      rw [hxy, hrec]

/-- `String.append` concatenates the character data. -/
theorem string_append_data (x y : String) : (x ++ y).data = x.data ++ y.data := by
  cases x
  cases y
  rfl

/-- C8 fails on the code as stated: when an argument contains the `":"`
separator itself, two calls with the same arguments in different order can
produce the SAME joined key string — and md5 of equal strings is equal, so
the cache keys collide: `key("x:x", "x") = key("x", "x:x")` although
`"x:x" ≠ "x"`. -/
theorem c8_counterexample :
    generate_key_string ["x:x", "x"] = generate_key_string ["x", "x:x"] ∧
    ("x:x" : String) ≠ "x" :=
  ⟨rfl, by decide⟩

/-- C8 (amended): for distinct argument strings neither of which contains
the `":"` separator, the derived key strings (and hence the hashed cache
keys) differ under argument swap; order sensitivity holds only under that
separator-freedom proviso. -/
theorem c8_key_order_sensitivity (a b : String)
    (ha : ':' ∉ a.data) (hb : ':' ∉ b.data) (hab : a ≠ b) :
    generate_key_string [a, b] ≠ generate_key_string [b, a] := by
  intro heq
  apply hab
  have h1 : generate_key_string [a, b] = a ++ ":" ++ b := rfl
  have h2 : generate_key_string [b, a] = b ++ ":" ++ a := rfl
  rw [h1, h2] at heq
  have h := congrArg String.data heq
  rw [string_append_data, string_append_data, string_append_data,
    string_append_data] at h
  have hcolon : (":" : String).data = [':'] := rfl
  rw [hcolon, List.append_assoc, List.append_assoc, List.singleton_append,
    List.singleton_append] at h
  have hdat : a.data = b.data := sep_split_unique a.data b.data b.data a.data ha hb h
  cases a
  cases b
  exact congrArg String.mk hdat

theorem c8_witness :
    generate_key_string ["alpha", "beta"] ≠ generate_key_string ["beta", "alpha"] :=
  c8_key_order_sensitivity "alpha" "beta" (by decide) (by decide) (by decide)

/-! ### C9 — confidence clamping -/

/-- A syntactically well-formed parse result whose confidence exceeds 1. -/
def c9_overconfident_intent : IntentDescriptor :=
  ⟨some "memory_replay", some "passive", some "curious",
    some "wants to relive everything", some 2⟩

/-- C9 fails on the code: the success path returns whatever descriptor the
external JSON parse produced, with NO clamping — a parsed confidence of 2
is passed through unchanged, and 2 lies outside [0, 1]. -/
theorem c9_counterexample :
    classify_intent_with_gemini (.ok "resp") (fun _ => some c9_overconfident_intent) "t9"
      = c9_overconfident_intent ∧
    c9_overconfident_intent.confidence = some 2 ∧
    ¬((2 : ℚ) ≤ 1) :=
  ⟨rfl, rfl, by norm_num⟩

/-- C9 (amended): only the fallback path guarantees a confidence inside
[0, 1] (it is the constant 0.5); the success path returns the externally
parsed descriptor unchanged, so no clamping is applied to its confidence. -/
theorem c9_confidence_clamping (topic err : String)
    (parse_json : String → Option IntentDescriptor) :
    (classify_intent_with_gemini (.error err) parse_json topic).confidence
      = some (1 / 2) ∧
    (0 ≤ (1 : ℚ) / 2 ∧ (1 : ℚ) / 2 ≤ 1) ∧
    (∀ (response : String) (d : IntentDescriptor),
      parse_json (stripMarkdownFence response) = some d →
      classify_intent_with_gemini (.ok response) parse_json topic = d) := by
  refine ⟨rfl, by norm_num, ?_⟩
  intro response d h
  show (match parse_json (stripMarkdownFence response) with
    | none => fallback_intent topic
    | some intent_data => intent_data) = d
  rw [h]

/-- A parse result with an in-range confidence. -/
def c9_ok_intent : IntentDescriptor :=
  ⟨some "memory_replay", some "passive", some "nostalgic",
    some "wants to see the beach", some (3 / 4)⟩

theorem c9_witness :
    (classify_intent_with_gemini (.error "boom") (fun _ => none) "t9w").confidence
      = some (1 / 2) ∧
    classify_intent_with_gemini (.ok "resp9") (fun _ => some c9_ok_intent) "t9w"
      = c9_ok_intent :=
  ⟨(c9_confidence_clamping "t9w" "boom" (fun _ => none)).1,
    (c9_confidence_clamping "t9w" "boom" (fun _ => some c9_ok_intent)).2.2
      "resp9" c9_ok_intent rfl⟩

end ForgetMeNot
